import Mathlib

/-!
Verification of the `Button` wrapper component
(`src/shared/components/atoms/Button.tsx`) of the Next.js template
repository, against its natural-language specification.

The component is a pure function from a caller-supplied props object to a
single render call of the underlying HeroUI `Button`.  We embed props
objects as ordered association lists of (key, value) pairs; JSX attribute
semantics ("later attribute wins", so a trailing `{...props}` spread
overrides earlier explicit attributes) is captured by a last-occurrence
lookup on the attribute list of the produced render call.
-/

/-- A runtime attribute value: a string, a boolean, or an opaque payload
(event handler, React node, ...), which the component never inspects. -/
inductive AttrValue where
  | str (s : String)
  | bool (b : Bool)
  | node (n : Nat)
deriving DecidableEq, Repr

/-- A props object: an ordered list of (key, value) bindings.  A later
binding for the same key overrides an earlier one, as in JS object
literals and JSX attribute lists. -/
abbrev Obj := List (String × AttrValue)

/-- Last-occurrence lookup: the value a JS object (or a JSX attribute
list) effectively holds for `key`, `none` when the key is absent. -/
def lookupAttr : Obj → String → Option AttrValue
  | [], _ => none
  | (k, v) :: rest, key =>
    match lookupAttr rest key with
    | some w => some w
    | none => if k = key then some v else none

/-- Destructuring read of an optional string-typed prop with a default,
embedding `variant = 'primary'` / `size = 'md'` in the source. -/
def getStr (o : Obj) (k : String) (d : String) : String :=
  match lookupAttr o k with
  | some (AttrValue.str s) => s
  | _ => d

/-- Destructuring read of an optional boolean prop with a default,
embedding `loading = false` in the source. -/
def getBool (o : Obj) (k : String) (d : Bool) : Bool :=
  match lookupAttr o k with
  | some (AttrValue.bool b) => b
  | _ => d

/-- The keys consumed by the destructuring pattern
`{ variant = 'primary', size = 'md', children, loading = false, ...props }`. -/
def consumedKeys : List String := ["variant", "size", "children", "loading"]

/-- The rest-props `...props`: every binding of the caller's object whose
key is not consumed by the destructuring pattern. -/
def restProps (o : Obj) : Obj :=
  o.filter (fun p => !(consumedKeys.contains p.1))

/-- Source function `getHeroUIVariant`: maps the custom variant name to
the HeroUI variant, defaulting to `solid`. -/
def getHeroUIVariant (customVariant : String) : String :=
  match customVariant with
  | "primary" => "solid"
  | "secondary" => "flat"
  | "outline" => "bordered"
  | "danger" => "solid"
  | _ => "solid"

/-- Source function `getHeroUIColor`: maps the custom variant name to the
HeroUI color, defaulting to `primary`. -/
def getHeroUIColor (customVariant : String) : String :=
  match customVariant with
  | "primary" => "primary"
  | "secondary" => "default"
  | "outline" => "default"
  | "danger" => "danger"
  | _ => "primary"

/-- The single render call the component delegates to: the HeroUI Button
receives an attribute list (in JSX order) and the JSX children. -/
structure RenderedButton where
  attrs : Obj
  children : Option AttrValue
deriving DecidableEq, Repr

/-- The `Button` component from the source.  It destructures
`variant`, `size`, `children` and `loading` (with defaults), and renders
`<HeroUIButton variant={getHeroUIVariant variant} color={getHeroUIColor
variant} size={size} isLoading={loading} {...props}>{children}</...>`.
The rest-props spread comes after the four explicit attributes, so it may
override them under last-occurrence lookup. -/
def Button (o : Obj) : RenderedButton :=
  let variant := getStr o "variant" "primary"
  let size := getStr o "size" "md"
  let loading := getBool o "loading" false
  { attrs :=
      [("variant", AttrValue.str (getHeroUIVariant variant)),
       ("color", AttrValue.str (getHeroUIColor variant)),
       ("size", AttrValue.str size),
       ("isLoading", AttrValue.bool loading)] ++ restProps o,
    children := lookupAttr o "children" }

/-- The style/color table of §4.1 of the spec, stated from the spec's own
words, to be compared with the source's mapping functions. -/
def specStyleTable (intent : String) : String × String :=
  match intent with
  | "primary" => ("solid", "primary")
  | "secondary" => ("flat", "default")
  | "outline" => ("bordered", "default")
  | "danger" => ("solid", "danger")
  | _ => ("solid", "primary")

-- Helper lemmas ------------------------------------------------------------

/-- Last-occurrence lookup over an append: the right-hand list wins. -/
lemma lookupAttr_append (l1 l2 : Obj) (k : String) :
    lookupAttr (l1 ++ l2) k =
      match lookupAttr l2 k with
      | some w => some w
      | none => lookupAttr l1 k := by
  induction l1 with
  | nil =>
    simp only [List.nil_append]
    cases lookupAttr l2 k <;> simp [lookupAttr]
  | cons p rest ih =>
    obtain ⟨k1, v1⟩ := p
    simp only [List.cons_append, lookupAttr, List.append_eq]
    rw [ih]
    cases lookupAttr l2 k <;> rfl

/-- A key bound nowhere in the list looks up to `none`. -/
lemma lookupAttr_eq_none_of_forall (l : Obj) (k : String)
    (h : ∀ p ∈ l, p.1 ≠ k) : lookupAttr l k = none := by
  induction l with
  | nil => rfl
  | cons p rest ih =>
    obtain ⟨k1, v1⟩ := p
    have hk1 : k1 ≠ k := h (k1, v1) (List.mem_cons_self _ _)
    have hrest : lookupAttr rest k = none :=
      ih (fun q hq => h q (List.mem_cons_of_mem _ hq))
    simp [lookupAttr, hrest, hk1]

/-- Every binding surviving the rest-spread has a non-consumed key. -/
lemma restProps_key_not_consumed (o : Obj) (p : String × AttrValue)
    (hp : p ∈ restProps o) : ¬ consumedKeys.contains p.1 := by
  have := List.of_mem_filter hp
  simpa using this

/-- The rest-props never bind a consumed key. -/
lemma lookupAttr_restProps_consumed (o : Obj) (k : String)
    (hk : consumedKeys.contains k) : lookupAttr (restProps o) k = none := by
  apply lookupAttr_eq_none_of_forall
  intro p hp hkey
  exact restProps_key_not_consumed o p hp (by rw [hkey]; exact hk)

/-- The attribute list the component hands to HeroUI: the four explicit
JSX attributes, then the rest-props spread. -/
lemma Button_attrs (o : Obj) : (Button o).attrs =
    [("variant", AttrValue.str (getHeroUIVariant (getStr o "variant" "primary"))),
     ("color", AttrValue.str (getHeroUIColor (getStr o "variant" "primary"))),
     ("size", AttrValue.str (getStr o "size" "md")),
     ("isLoading", AttrValue.bool (getBool o "loading" false))] ++ restProps o := rfl

/-- The default branch of the variant mapping. -/
lemma getHeroUIVariant_fallback (s : String) (h1 : s ≠ "primary")
    (h2 : s ≠ "secondary") (h3 : s ≠ "outline") (h4 : s ≠ "danger") :
    getHeroUIVariant s = "solid" := by
  unfold getHeroUIVariant
  split <;> simp_all

/-- The default branch of the color mapping. -/
lemma getHeroUIColor_fallback (s : String) (h1 : s ≠ "primary")
    (h2 : s ≠ "secondary") (h3 : s ≠ "outline") (h4 : s ≠ "danger") :
    getHeroUIColor s = "primary" := by
  unfold getHeroUIColor
  split <;> simp_all

-- Claim theorems -----------------------------------------------------------

/-- C1: for every render request whose destructured variant is one of the
four defined intents, the explicit style/color pair the component passes
to HeroUI (the first two attributes of the render call) is exactly the
pair of the §4.1 spec table. -/
theorem button_matches_spec_table (o : Obj)
    (h : getStr o "variant" "primary" ∈ ["primary", "secondary", "outline", "danger"]) :
    (Button o).attrs.take 2 =
      [("variant", AttrValue.str (specStyleTable (getStr o "variant" "primary")).1),
       ("color", AttrValue.str (specStyleTable (getStr o "variant" "primary")).2)] := by
  have hb : (Button o).attrs.take 2 =
      [("variant", AttrValue.str (getHeroUIVariant (getStr o "variant" "primary"))),
       ("color", AttrValue.str (getHeroUIColor (getStr o "variant" "primary")))] := rfl
  rw [hb]
  simp only [List.mem_cons, List.not_mem_nil, or_false] at h
  rcases h with h | h | h | h <;> rw [h] <;> rfl

/-- Witness for C1 at the spec's own example `{intent: "secondary"}`. -/
theorem button_matches_spec_table_witness :
    (Button [("variant", AttrValue.str "secondary")]).attrs.take 2 =
      [("variant", AttrValue.str
          (specStyleTable (getStr [("variant", AttrValue.str "secondary")] "variant" "primary")).1),
       ("color", AttrValue.str
          (specStyleTable (getStr [("variant", AttrValue.str "secondary")] "variant" "primary")).2)] :=
  button_matches_spec_table [("variant", AttrValue.str "secondary")] (by decide)

/-- C2: for any destructured variant outside the four defined intents,
the component signals no error (the mapping is total) and passes the
primary row's pair, style `solid` and color `primary`. -/
theorem button_fallback_to_primary_row (o : Obj)
    (h : getStr o "variant" "primary" ∉ ["primary", "secondary", "outline", "danger"]) :
    (Button o).attrs.take 2 =
      [("variant", AttrValue.str "solid"), ("color", AttrValue.str "primary")] := by
  have hb : (Button o).attrs.take 2 =
      [("variant", AttrValue.str (getHeroUIVariant (getStr o "variant" "primary"))),
       ("color", AttrValue.str (getHeroUIColor (getStr o "variant" "primary")))] := rfl
  simp only [List.mem_cons, List.not_mem_nil, or_false, not_or] at h
  obtain ⟨h1, h2, h3, h4⟩ := h
  rw [hb, getHeroUIVariant_fallback _ h1 h2 h3 h4, getHeroUIColor_fallback _ h1 h2 h3 h4]

/-- Witness for C2 at the unrecognized intent `"ghost"`. -/
theorem button_fallback_to_primary_row_witness :
    (Button [("variant", AttrValue.str "ghost")]).attrs.take 2 =
      [("variant", AttrValue.str "solid"), ("color", AttrValue.str "primary")] :=
  button_fallback_to_primary_row [("variant", AttrValue.str "ghost")] (by decide)

/-- C3: the `isLoading` attribute the component passes to HeroUI equals
the destructured `loading` input: a `loading` binding of `true` yields
`true`, and a binding of `false` or an absent binding yields `false`. -/
theorem button_busy_flag_equals_loading (o : Obj) :
    ((Button o).attrs[3]? = some ("isLoading", AttrValue.bool (getBool o "loading" false)))
    ∧ (lookupAttr o "loading" = some (AttrValue.bool true) →
        (Button o).attrs[3]? = some ("isLoading", AttrValue.bool true))
    ∧ (lookupAttr o "loading" = some (AttrValue.bool false) ∨ lookupAttr o "loading" = none →
        (Button o).attrs[3]? = some ("isLoading", AttrValue.bool false)) := by
  refine ⟨by simp [Button_attrs], ?_, ?_⟩
  · intro h
    simp [Button_attrs, getBool, h]
  · rintro (h | h) <;> simp [Button_attrs, getBool, h]

/-- Witness for C3 at a request with `loading = true`. -/
theorem button_busy_flag_equals_loading_witness :
    (Button [("loading", AttrValue.bool true)]).attrs[3]? =
      some ("isLoading", AttrValue.bool true) :=
  (button_busy_flag_equals_loading [("loading", AttrValue.bool true)]).2.1 (by decide)

/-- C4: for every size among `sm`, `md`, `lg` supplied by the caller,
the effective `size` attribute HeroUI receives is the input size
unchanged; the rest-props spread cannot override it because `size` is
consumed by destructuring. -/
theorem button_size_passthrough_identity (o : Obj) (s : String)
    (_hs : s ∈ ["sm", "md", "lg"])
    (h : lookupAttr o "size" = some (AttrValue.str s)) :
    lookupAttr (Button o).attrs "size" = some (AttrValue.str s) := by
  have hrest : lookupAttr (restProps o) "size" = none :=
    lookupAttr_restProps_consumed o "size" (by decide)
  rw [Button_attrs, lookupAttr_append, hrest]
  simp [lookupAttr, getStr, h]

/-- Witness for C4 at size `lg`. -/
theorem button_size_passthrough_identity_witness :
    lookupAttr (Button [("size", AttrValue.str "lg")]).attrs "size" =
      some (AttrValue.str "lg") :=
  button_size_passthrough_identity [("size", AttrValue.str "lg")] "lg"
    (by decide) (by decide)

/-- C5: a render request that omits `variant`, `size` and `loading`
renders with the defaults: style `solid`, color `primary`, size `md`,
busy-flag `false`. -/
theorem button_defaults (o : Obj)
    (hv : lookupAttr o "variant" = none) (hs : lookupAttr o "size" = none)
    (hl : lookupAttr o "loading" = none) :
    (Button o).attrs.take 4 =
      [("variant", AttrValue.str "solid"), ("color", AttrValue.str "primary"),
       ("size", AttrValue.str "md"), ("isLoading", AttrValue.bool false)] := by
  have h1 : getStr o "variant" "primary" = "primary" := by simp [getStr, hv]
  have h2 : getStr o "size" "md" = "md" := by simp [getStr, hs]
  have h3 : getBool o "loading" false = false := by simp [getBool, hl]
  have hb : (Button o).attrs.take 4 =
      [("variant", AttrValue.str (getHeroUIVariant (getStr o "variant" "primary"))),
       ("color", AttrValue.str (getHeroUIColor (getStr o "variant" "primary"))),
       ("size", AttrValue.str (getStr o "size" "md")),
       ("isLoading", AttrValue.bool (getBool o "loading" false))] := rfl
  rw [hb, h1, h2, h3]
  rfl

/-- Witness for C5 at the spec's example `{}` with content "Go". -/
theorem button_defaults_witness :
    (Button [("children", AttrValue.node 0)]).attrs.take 4 =
      [("variant", AttrValue.str "solid"), ("color", AttrValue.str "primary"),
       ("size", AttrValue.str "md"), ("isLoading", AttrValue.bool false)] :=
  button_defaults [("children", AttrValue.node 0)] (by decide) (by decide) (by decide)

/-- C6: every binding of the rest-props spread appears with its value
unchanged as the effective attribute of the render call (the spread comes
last, so it wins), and the rest-props take no part in the style/color
mapping: two requests with the same destructured variant produce the same
explicit style/color pair. -/
theorem button_passthrough_forwarded (o o2 : Obj) (k : String) (v : AttrValue)
    (hk : lookupAttr (restProps o) k = some v)
    (hv : getStr o "variant" "primary" = getStr o2 "variant" "primary") :
    lookupAttr (Button o).attrs k = some v
    ∧ (Button o).attrs.take 2 = (Button o2).attrs.take 2 := by
  constructor
  · rw [Button_attrs, lookupAttr_append, hk]
  · have hb : (Button o).attrs.take 2 =
        [("variant", AttrValue.str (getHeroUIVariant (getStr o "variant" "primary"))),
         ("color", AttrValue.str (getHeroUIColor (getStr o "variant" "primary")))] := rfl
    have hb2 : (Button o2).attrs.take 2 =
        [("variant", AttrValue.str (getHeroUIVariant (getStr o2 "variant" "primary"))),
         ("color", AttrValue.str (getHeroUIColor (getStr o2 "variant" "primary")))] := rfl
    rw [hb, hb2, hv]

/-- Witness for C6: a custom data attribute forwarded verbatim while a
different passthrough set leaves the style/color pair unchanged. -/
theorem button_passthrough_forwarded_witness :
    lookupAttr (Button [("data-x", AttrValue.str "1")]).attrs "data-x" =
      some (AttrValue.str "1")
    ∧ (Button [("data-x", AttrValue.str "1")]).attrs.take 2 =
      (Button []).attrs.take 2 :=
  button_passthrough_forwarded [("data-x", AttrValue.str "1")] [] "data-x"
    (AttrValue.str "1") (by decide) (by decide)

/-- C7: the component is a deterministic pure function of its props
object: equal inputs give equal render calls (in this embedding it is a
total function reading nothing but its argument). -/
theorem button_deterministic_pure (o1 o2 : Obj) (h : o1 = o2) :
    Button o1 = Button o2 := by rw [h]

/-- Witness for C7 at a concrete request. -/
theorem button_deterministic_pure_witness :
    Button [("children", AttrValue.node 1)] = Button [("children", AttrValue.node 1)] :=
  button_deterministic_pure [("children", AttrValue.node 1)]
    [("children", AttrValue.node 1)] rfl

/-- C8: the rest-props spread is applied after the mapped attributes, so
a passthrough `color` or `isLoading` binding overrides the mapped color
or busy-flag, and the mapped values are effective exactly when the
rest-props carry no such binding. -/
theorem button_spread_overrides_mapped (o : Obj) (v : AttrValue) :
    (lookupAttr (restProps o) "color" = some v →
      lookupAttr (Button o).attrs "color" = some v)
    ∧ (lookupAttr (restProps o) "isLoading" = some v →
      lookupAttr (Button o).attrs "isLoading" = some v)
    ∧ (lookupAttr (restProps o) "color" = none →
      lookupAttr (Button o).attrs "color" =
        some (AttrValue.str (getHeroUIColor (getStr o "variant" "primary"))))
    ∧ (lookupAttr (restProps o) "isLoading" = none →
      lookupAttr (Button o).attrs "isLoading" =
        some (AttrValue.bool (getBool o "loading" false))) := by
  refine ⟨?_, ?_, ?_, ?_⟩ <;> intro h <;> rw [Button_attrs, lookupAttr_append, h] <;> rfl

/-- Witness for C8: a passthrough `color` binding wins over the mapped
color. -/
theorem button_spread_overrides_mapped_witness :
    lookupAttr (Button [("color", AttrValue.str "warning")]).attrs "color" =
      some (AttrValue.str "warning") :=
  (button_spread_overrides_mapped [("color", AttrValue.str "warning")]
    (AttrValue.str "warning")).1 (by decide)

/-- C9: the four caller-facing keys `variant`, `size`, `loading`,
`children` are consumed by destructuring, so the rest-props never bind
them; the render call carries no `loading` or `children` attribute, its
`variant` attribute is the mapped HeroUI value, and that value is always
one of `solid`, `flat`, `bordered` — never a custom intent name. -/
theorem button_consumed_keys_absent (o : Obj) :
    (∀ k, k ∈ consumedKeys → lookupAttr (restProps o) k = none)
    ∧ lookupAttr (Button o).attrs "loading" = none
    ∧ lookupAttr (Button o).attrs "children" = none
    ∧ lookupAttr (Button o).attrs "variant" =
        some (AttrValue.str (getHeroUIVariant (getStr o "variant" "primary")))
    ∧ (∀ s, getHeroUIVariant s ∈ ["solid", "flat", "bordered"]) := by
  have habs : ∀ k, k ∈ consumedKeys → lookupAttr (restProps o) k = none := by
    intro k hk
    exact lookupAttr_restProps_consumed o k (List.elem_eq_true_of_mem hk)
  refine ⟨habs, ?_, ?_, ?_, ?_⟩
  · rw [Button_attrs, lookupAttr_append, habs "loading" (by decide)]
    rfl
  · rw [Button_attrs, lookupAttr_append, habs "children" (by decide)]
    rfl
  · rw [Button_attrs, lookupAttr_append, habs "variant" (by decide)]
    rfl
  · intro s
    unfold getHeroUIVariant
    split <;> decide

/-- Witness for C9: a caller-supplied `loading` binding does not reach
the rest-props. -/
theorem button_consumed_keys_absent_witness :
    lookupAttr (restProps [("loading", AttrValue.bool true)]) "loading" = none :=
  (button_consumed_keys_absent [("loading", AttrValue.bool true)]).1 "loading" (by decide)

/-- C10: the children of the render request are passed verbatim as the
HeroUI children, for every combination of the other props. -/
theorem button_children_verbatim (o : Obj) :
    (Button o).children = lookupAttr o "children" := rfl
